import Mathlib

/-!
Shallow embedding of `twitterscraper/query.py` (the pagination / retry /
fan-out engine) together with proofs about its behaviour.

Modelling conventions:
* Machine-level Python values that flow through the engine (cursors, JSON
  envelopes) are modelled by `PyVal`; Python exceptions that can travel
  through the modelled code paths by `PyErr`; a raised exception is an
  `Except.error`.
* The external collaborators (HTTP transport, `json.loads`, the page
  parser `Tweet.from_html`, the user parser `User.from_html`) are
  parameters of the model: the network is a map from attempt index to
  an optional response body (`Option.none` models a raised
  `requests.exceptions.RequestException`), and the parsers are opaque
  functions supplied by the environment, as the spec's component
  breakdown prescribes.
* Loops are written as fuel-indexed recursions; `_request_page`'s loop is
  bounded by the retry budget exactly as in the source, while the
  unbounded `while True` paginator loops take a fuel argument whose
  exhaustion is reported as `Option.none` (reaching it for every fuel
  models divergence of the source loop).
-/

namespace Scraper

/-- A scraped tweet.  The model keeps the two fields the engine reads:
the identifier (`tweets[-1].id` becomes the returned cursor) and the
timestamp (used by the user-timeline tail merge). -/
structure Tweet where
  id : String
  timestamp : Int
deriving DecidableEq

/-- Python values flowing through the engine: `None`, strings, ints and
JSON-style dictionaries (the envelope of a continuation response). -/
inductive PyVal where
  | pyNone
  | str (s : String)
  | int (n : Int)
  | dict (fields : List (String × PyVal))

/-- Python exceptions that can arise on the modelled code paths. -/
inductive PyErr where
  | keyError
  | typeError
  | unboundLocal
  | valueError
  | zeroDivisionError
  | nameError
deriving DecidableEq

/-- Python truthiness of the modelled values. -/
def truthy : PyVal → Bool
  | PyVal.pyNone => false
  | PyVal.str s => s != ""
  | PyVal.int n => n != 0
  | PyVal.dict l => !l.isEmpty

/-- The `x is None` test. -/
def isPyNone : PyVal → Bool
  | PyVal.pyNone => true
  | _ => false

/-- Python subscription `v[key]`: `KeyError` on a missing key,
`TypeError` when `v` is not a dictionary. -/
def getItem (v : PyVal) (key : String) : Except PyErr PyVal :=
  match v with
  | PyVal.dict fields =>
    match fields.lookup key with
    | some w => Except.ok w
    | Option.none => Except.error PyErr.keyError
  | _ => Except.error PyErr.typeError

/-- Decimal value of a digit character (code points 48-57). -/
def digitVal (c : Char) : Option Nat :=
  if 48 ≤ c.toNat ∧ c.toNat ≤ 57 then some (c.toNat - 48) else none

/-- Accumulator loop for `decimal`. -/
def decimalAux : List Char → Nat → Option Nat
  | [], acc => some acc
  | c :: cs, acc =>
    match digitVal c with
    | some d => decimalAux cs (acc * 10 + d)
    | Option.none => Option.none

/-- Parse a non-empty all-digit string as a natural number, the shape of
every cursor value (`tweets[-1].id`) this code converts. -/
def decimal (s : String) : Option Nat :=
  match s.data with
  | [] => Option.none
  | l => decimalAux l 0

/-- Python `int(x)` on the values used as cursors: ints pass through,
decimal strings parse (`ValueError` otherwise), `None` and dictionaries
raise `TypeError`. -/
def pyInt : PyVal → Except PyErr Int
  | PyVal.int n => Except.ok n
  | PyVal.str s =>
    match decimal s with
    | some n => Except.ok (n : Int)
    | Option.none => Except.error PyErr.valueError
  | PyVal.pyNone => Except.error PyErr.typeError
  | PyVal.dict _ => Except.error PyErr.typeError

/-- The external collaborators of `_request_page`: `jsonLoads` models
`json.loads` (`Option.none` = the `ValueError` it raises on a body that
is not JSON), `fromHtml` models the black-box page parser
`Tweet.from_html` (per the spec an external collaborator that returns a
record list and never raises). -/
structure Ctx where
  jsonLoads : String → Option PyVal
  fromHtml : PyVal → List Tweet

/-- Log events emitted by `_request_page`:
`exception` is `logger.exception(e)`, `retryInfo k` is
`logger.info('retry... (k left)')`, `errorNoSuccess n` is
`logger.error('no success within n attempts.')`. -/
inductive LogEvent where
  | exception
  | retryInfo (left : Nat)
  | errorNoSuccess (n : Nat)
deriving DecidableEq

/-- Binding state of the function-local Python variable `response_json`,
which persists across loop iterations and starts unbound. -/
inductive RJ where
  | unbound
  | bound (v : PyVal)

/-- The observable outcome of one `_request_page` call: the returned (or
raised) value, how many `requests.get` calls were made, and the log. -/
structure RPResult where
  result : Except PyErr (List Tweet × PyVal)
  fetchCalls : Nat
  log : List LogEvent

/-- Outcome of one iteration of the `_request_page` retry loop. -/
inductive StepOut where
  | raise (e : PyErr)
  | caught
  | stall (newPos : PyVal) (rj : RJ)
  | done (tweets : List Tweet) (cursor : PyVal)

/-- One iteration of the body of `_request_page`'s `for i in range(retry)`
loop (query.py lines 197-215), given the transport's answer for this
attempt (`Option.none` = `requests.get` raised `RequestException`):
* a transport failure is `caught` (handled by the `except` clause, which
  logs and falls through to the retry countdown);
* on a first-page request (`pos is None`) the body is parsed directly and
  `response_json` is bound to `None`;
* on a continuation request the body goes through `json.loads`; a
  `ValueError` there is caught with `html = ''` and `response_json` left
  as it was (possibly still unbound), while `response_json['items_html']`
  raises `KeyError`/`TypeError` that no `except` clause handles;
* zero parsed records `stall`: `pos` is reassigned from
  `response_json['min_position']` when `response_json` is truthy (an
  unbound `response_json` raises `UnboundLocalError`), from `None`
  otherwise, and the loop `continue`s;
* a non-empty record list is returned with the last record's id. -/
def attemptStep (ctx : Ctx) (fetch : Option String) (pos : PyVal) (rj : RJ) : StepOut :=
  match fetch with
  | Option.none => StepOut.caught
  | some text =>
    let pr : Except PyErr (PyVal × RJ) :=
      if isPyNone pos then
        Except.ok (PyVal.str text, RJ.bound PyVal.pyNone)
      else
        match ctx.jsonLoads text with
        | Option.none => Except.ok (PyVal.str "", rj)
        | some v =>
          match getItem v "items_html" with
          | Except.error e => Except.error e
          | Except.ok w => Except.ok (if truthy w then w else PyVal.str "", RJ.bound v)
    match pr with
    | Except.error e => StepOut.raise e
    | Except.ok (html, rj') =>
      match ctx.fromHtml html with
      | [] =>
        match rj' with
        | RJ.unbound => StepOut.raise PyErr.unboundLocal
        | RJ.bound v =>
          if truthy v then
            match getItem v "min_position" with
            | Except.error e => StepOut.raise e
            | Except.ok m => StepOut.stall m (RJ.bound v)
          else StepOut.stall PyVal.pyNone (RJ.bound v)
      | t :: ts => StepOut.done (t :: ts) (PyVal.str (ts.getLastD t).id)

/-- The retry loop of `_request_page` (query.py lines 196-224).  `i` is
the attempt index into the transport trace, `fuel` the remaining
iterations of `range(retry)` (so `fuel = retry - i` at every call), `pos`
the current cursor and `rj` the binding state of `response_json`.  A
`caught` transport failure logs the exception and the retry countdown; a
`stall` re-enters the loop via `continue`, skipping the countdown log;
exhausting the range logs an error and returns `([], None)`. -/
def request_page_loop (ctx : Ctx) (fetches : Nat → Option String) (retry : Nat) :
    Nat → Nat → PyVal → RJ → RPResult
  | _, 0, _, _ =>
    { result := Except.ok ([], PyVal.pyNone), fetchCalls := 0,
      log := [LogEvent.errorNoSuccess retry] }
  | i, fuel + 1, pos, rj =>
    match attemptStep ctx (fetches i) pos rj with
    | StepOut.raise e => { result := Except.error e, fetchCalls := 1, log := [] }
    | StepOut.caught =>
      let r := request_page_loop ctx fetches retry (i + 1) fuel pos rj
      { result := r.result, fetchCalls := r.fetchCalls + 1,
        log := LogEvent.exception :: LogEvent.retryInfo fuel :: r.log }
    | StepOut.stall m rj' =>
      let r := request_page_loop ctx fetches retry (i + 1) fuel m rj'
      { result := r.result, fetchCalls := r.fetchCalls + 1, log := r.log }
    | StepOut.done ts c =>
      { result := Except.ok (ts, c), fetchCalls := 1, log := [] }

/-- `_request_page(query, lang, pos, retry)`: run the retry loop from
attempt 0 with `response_json` unbound. -/
def request_page (ctx : Ctx) (fetches : Nat → Option String) (pos : PyVal)
    (retry : Nat) : RPResult :=
  request_page_loop ctx fetches retry 0 retry pos RJ.unbound

/-- The log a run of `_request_page` produces when every one of `n`
attempts ends in a transport failure (one logged exception and one retry
countdown per attempt). -/
def transportLog : Nat → List LogEvent
  | 0 => []
  | n + 1 => LogEvent.exception :: LogEvent.retryInfo n :: transportLog n

/-- Python `if limit and count >= limit`: `limit` must be truthy (not
`None` and nonzero) and reached. -/
def limitHit (limit : Option Nat) (count : Nat) : Bool :=
  match limit with
  | Option.none => false
  | some l => (l != 0) && (decide (l ≤ count))

/-- The `while True` loop of the generator `query_tweets` (query.py lines
108-119), driven by an oracle `pages` giving the outcome of the `k`-th
`_request_page` call (an `Except.error` models a raised exception, which
the generator's `except BaseException` boundary catches, ending the
stream).  `pos` is the cursor the current page was requested with, `num`
the running count `num_tweets`.  The value is the list of `(tweet, pos)`
pairs the generator yields from this point on; `Option.none` reports fuel
exhaustion (the source loop is unbounded). -/
def query_tweets_loop (pages : Nat → Except PyErr (List Tweet × PyVal))
    (limit : Option Nat) : Nat → PyVal → Nat → Nat → Option (List (Tweet × PyVal))
  | _, _, _, 0 => Option.none
  | k, pos, num, fuel + 1 =>
    match pages k with
    | Except.error _ => some []
    | Except.ok (newTweets, newPos) =>
      match newTweets with
      | [] => some []
      | t :: ts =>
        let emitted := (t :: ts).map (fun tw => (tw, pos))
        let num' := num + (t :: ts).length
        if limitHit limit num' then some emitted
        else
          match query_tweets_loop pages limit (k + 1) newPos num' fuel with
          | Option.none => Option.none
          | some rest => some (emitted ++ rest)

/-- `query_tweets(query, lang, pos, limit)`: the full yielded sequence of
the generator, starting from the caller-supplied cursor with count 0. -/
def query_tweets (pages : Nat → Except PyErr (List Tweet × PyVal))
    (limit : Option Nat) (pos : PyVal) (fuel : Nat) : Option (List (Tweet × PyVal)) :=
  query_tweets_loop pages limit 0 pos 0 fuel

/-- The tail-merge loop of `query_user_tweets` (query.py lines 79-81):
`for tweet in new_tweets: if tweets[-1].timestamp > tweet.timestamp:
tweets.append(tweet)`.  The comparison re-reads `tweets[-1]` after every
append, and `tweets[-1]` on an empty list raises `IndexError`, which the
operation's boundary catches, returning the list unchanged. -/
def tail_merge_loop : List Tweet → List Tweet → List Tweet
  | acc, [] => acc
  | acc, t :: rest =>
    match acc.getLast? with
    | Option.none => acc
    | some last =>
      if last.timestamp > t.timestamp then tail_merge_loop (acc ++ [t]) rest
      else tail_merge_loop acc rest

/-- The guard `pos and int(new_pos) > int(pos)` of `query_user_tweets`
(query.py line 78), with Python's evaluation order: truthiness of `pos`
first, then `int(new_pos)`, then `int(pos)`; a raised conversion error
propagates to the operation's boundary. -/
def reversal_check (pos newPos : PyVal) : Except PyErr Bool :=
  if truthy pos then
    match pyInt newPos with
    | Except.error e => Except.error e
    | Except.ok b =>
      match pyInt pos with
      | Except.error e => Except.error e
      | Except.ok a => Except.ok (decide (a < b))
  else Except.ok false

/-- The `while True` loop of `query_user_tweets` (query.py lines 76-86),
driven by the same kind of page oracle.  `acc` is the accumulated
`tweets` list.  A raised exception — from the oracle or from the guard —
is caught by the surrounding `except BaseException`, and the operation
returns the tweets accumulated so far; a true guard runs the tail merge
and breaks; otherwise the page is appended, the cursor advanced and the
limit checked.  `Option.none` reports fuel exhaustion. -/
def query_user_tweets_loop (pages : Nat → Except PyErr (List Tweet × PyVal))
    (limit : Option Nat) : Nat → PyVal → List Tweet → Nat → Option (List Tweet)
  | _, _, _, 0 => Option.none
  | k, pos, acc, fuel + 1 =>
    match pages k with
    | Except.error _ => some acc
    | Except.ok (newTweets, newPos) =>
      match reversal_check pos newPos with
      | Except.error _ => some acc
      | Except.ok true => some (tail_merge_loop acc newTweets)
      | Except.ok false =>
        let acc' := acc ++ newTweets
        if limitHit limit acc'.length then some acc'
        else query_user_tweets_loop pages limit (k + 1) newPos acc' fuel

/-- `query_user_tweets(user, limit)`: run the loop from a `None` cursor
with an empty accumulator. -/
def query_user_tweets (pages : Nat → Except PyErr (List Tweet × PyVal))
    (limit : Option Nat) (fuel : Nat) : Option (List Tweet) :=
  query_user_tweets_loop pages limit 0 PyVal.pyNone [] fuel

/-- The retry loop of `_request_user` (query.py lines 172-184): a
transport failure is logged and retried; on a fetched body the user
parser's value is returned directly — an exception it raises escapes
`_request_user` (only `RequestException` is handled there).  Exhausting
the budget returns `None`.  `U` is the opaque profile-record type. -/
def request_user_loop {U : Type} (fetches : Nat → Option String)
    (fromHtmlU : String → Except PyErr (Option U)) : Nat → Nat → Except PyErr (Option U)
  | _, 0 => Except.ok Option.none
  | i, fuel + 1 =>
    match fetches i with
    | Option.none => request_user_loop fetches fromHtmlU (i + 1) fuel
    | some text => fromHtmlU text

/-- `query_user(user)` (query.py lines 55-68): `_request_user` behind a
boundary that catches `BaseException`, logging it and returning `None`
implicitly. -/
def query_user {U : Type} (fetches : Nat → Option String)
    (fromHtmlU : String → Except PyErr (Option U)) (retry : Nat) : Option U :=
  match request_user_loop fetches fromHtmlU 0 retry with
  | Except.error _ => Option.none
  | Except.ok u => u

/-- The pool-size clamp of `query_tweets_parallel` (query.py lines
132-133): `if poolsize > no_days: poolsize = no_days`. -/
def clampedPool (poolsize noDays : Nat) : Nat :=
  if poolsize > noDays then noDays else poolsize

/-- Day offsets of the partition boundaries: `np.linspace(0, D, p + 1)`
composed with `begindate + dt.timedelta(days=elem)`, which keeps only the
whole-day part of each sample (`date + timedelta` adds `timedelta.days`,
the floor of the fractional day count).  The float samples are modelled
by exact rationals, so each boundary offset is `⌊i * D / p⌋`; for
`p = 0`, `np.linspace(0, D, 1)` is the single sample `[0]`. -/
def linspaceDays (D p : Nat) : List Nat :=
  if p = 0 then [0] else (List.range (p + 1)).map (fun i => i * D / p)

/-- The date partitions of `query_tweets_parallel` (query.py lines
131-138): single `(since, until)` day pairs obtained by zipping the
boundary list with its own tail (`zip(dateranges[:-1], dateranges[1:])`).
Dates are modelled by their ordinal day numbers.  Each pair is rendered
in the source into the sub-query string
`f'{query} since:{since} until:{until}'`. -/
def parallelPartitions (begindate enddate : Int) (poolsize : Nat) : List (Int × Int) :=
  let noDays := (enddate - begindate).toNat
  let p := clampedPool poolsize noDays
  let dateranges := (linspaceDays noDays p).map (fun b => begindate + Int.ofNat b)
  dateranges.zip (dateranges.drop 1)

/-- `query_tweets_parallel(query, lang, limit, poolsize, begindate,
enddate)` (query.py lines 128-154).  `runPartition` abstracts one
worker's `_query_tweets_wrapper` run on a `(since, until)` partition with
the per-pool limit (the wrapper collects a `query_tweets` generator,
which never raises).  The per-pool limit is `(limit // poolsize) + 1`
when `limit` is truthy — a `ZeroDivisionError` when the clamped pool size
is 0 — and the body's only handler catches `KeyboardInterrupt`, so
`Pool(0)`'s `ValueError` followed by the `finally` clause's unbound
`pool` name escapes as a `NameError`.  Worker results are merged as the
pool yields them (`imap_unordered` completion order is nondeterministic;
the model concatenates in submission order, which no claim relies on). -/
def query_tweets_parallel (runPartition : Int × Int → Option Nat → List Tweet)
    (limit : Option Nat) (poolsize : Nat) (begindate enddate : Int) :
    Except PyErr (List Tweet) :=
  let noDays := (enddate - begindate).toNat
  let p := clampedPool poolsize noDays
  let limitPerPool : Except PyErr (Option Nat) :=
    match limit with
    | some l =>
      if l != 0 then
        if p = 0 then Except.error PyErr.zeroDivisionError
        else Except.ok (some (l / p + 1))
      else Except.ok Option.none
    | Option.none => Except.ok Option.none
  match limitPerPool with
  | Except.error e => Except.error e
  | Except.ok lpp =>
    if p = 0 then Except.error PyErr.nameError
    else
      Except.ok
        (((parallelPartitions begindate enddate poolsize).map
          (fun pr => runPartition pr lpp)).flatten)

/-- The pairs `query_tweets` emits for `n` successive pages starting at
page index `k0`, when page `j` was requested with the cursor recorded in
this sequence: each page's records are paired with the cursor the page
was requested with, and the cursor advances to the page's reported next
position only for the following page. -/
def emitFrom (recs : Nat → List Tweet) (curs : Nat → PyVal) :
    Nat → PyVal → Nat → List (Tweet × PyVal)
  | _, _, 0 => []
  | k0, pos, n + 1 =>
    ((recs k0).map (fun t => (t, pos))) ++ emitFrom recs curs (k0 + 1) (curs k0) n

/-! Helper lemmas. -/

lemma request_page_loop_transport (ctx : Ctx) (fetches : Nat → Option String)
    (retry : Nat) (hf : ∀ n, fetches n = Option.none) :
    ∀ (fuel i : Nat) (pos : PyVal) (rj : RJ),
      request_page_loop ctx fetches retry i fuel pos rj =
        ⟨Except.ok ([], PyVal.pyNone), fuel,
          transportLog fuel ++ [LogEvent.errorNoSuccess retry]⟩ := by
  intro fuel
  induction fuel with
  | zero => intro i pos rj; rfl
  | succ n ih =>
    intro i pos rj
    have hs : attemptStep ctx (fetches i) pos rj = StepOut.caught := by
      rw [hf i]; rfl
    simp only [request_page_loop, hs, ih (i + 1)]
    rfl

lemma limitHit_zero (limit : Option Nat) : limitHit limit 0 = false := by
  cases limit with
  | none => rfl
  | some l => cases l with
    | zero => rfl
    | succ m => rfl

lemma query_user_tweets_loop_all_empty (limit : Option Nat) :
    ∀ (fuel k : Nat),
      query_user_tweets_loop (fun _ => Except.ok ([], PyVal.pyNone)) limit k
        PyVal.pyNone [] fuel = Option.none := by
  intro fuel
  induction fuel with
  | zero => intro k; rfl
  | succ n ih =>
    intro k
    simp [query_user_tweets_loop, reversal_check, truthy, limitHit_zero]
    exact ih (k + 1)

lemma attemptStep_stall_first_page (ctx : Ctx) (text : String) (rj : RJ)
    (hparse : ctx.fromHtml (PyVal.str text) = []) :
    attemptStep ctx (some text) PyVal.pyNone rj =
      StepOut.stall PyVal.pyNone (RJ.bound PyVal.pyNone) := by
  simp [attemptStep, isPyNone, truthy, hparse]

lemma attemptStep_stall_continuation (ctx : Ctx) (text : String)
    (pos env w m : PyVal) (rj : RJ)
    (hpos : isPyNone pos = false)
    (hjson : ctx.jsonLoads text = some env)
    (hw : getItem env "items_html" = Except.ok w)
    (hparse : ctx.fromHtml (if truthy w then w else PyVal.str "") = [])
    (henv : truthy env = true)
    (hm : getItem env "min_position" = Except.ok m) :
    attemptStep ctx (some text) pos rj = StepOut.stall m (RJ.bound env) := by
  simp [attemptStep, hpos, hjson, hw, hparse, henv, hm]

lemma request_page_loop_stall_run (ctx : Ctx) (fetches : Nat → Option String)
    (retry : Nat) (text : String) (env w p : PyVal)
    (hf : ∀ n, fetches n = some text)
    (hjson : ctx.jsonLoads text = some env)
    (henv : truthy env = true)
    (hw : getItem env "items_html" = Except.ok w)
    (hparse : ctx.fromHtml (if truthy w then w else PyVal.str "") = [])
    (hm : getItem env "min_position" = Except.ok p)
    (hp : isPyNone p = false) :
    ∀ (fuel i : Nat) (rj : RJ),
      request_page_loop ctx fetches retry i fuel p rj =
        ⟨Except.ok ([], PyVal.pyNone), fuel, [LogEvent.errorNoSuccess retry]⟩ := by
  intro fuel
  induction fuel with
  | zero => intro i rj; rfl
  | succ n ih =>
    intro i rj
    simp only [request_page_loop, hf i,
      attemptStep_stall_continuation ctx text p env w p rj hp hjson hw hparse henv hm,
      ih (i + 1)]

/-- C1: the stall rule of `_request_page` and its budget.  First
conjunct: on a first-page attempt (no envelope) that fetches but parses
to zero records, the function does not return — the cursor is set to null
and the loop retries, consuming one attempt.  Second conjunct: on a
continuation attempt whose envelope parses to zero records, the cursor is
updated to the envelope's reported `min_position` value and the loop
retries, consuming one attempt.  Third conjunct: even when every attempt
yields zero records with an unchanged `min_position`, the loop makes
exactly the retry budget `R` attempts and then returns
`(empty sequence, null)` — it never loops forever. -/
theorem request_page_stall_rule_and_budget :
    (∀ (ctx : Ctx) (fetches : Nat → Option String) (retry i fuel : Nat)
       (rj : RJ) (text : String),
       fetches i = some text → ctx.fromHtml (PyVal.str text) = [] →
       request_page_loop ctx fetches retry i (fuel + 1) PyVal.pyNone rj =
         { result := (request_page_loop ctx fetches retry (i + 1) fuel
             PyVal.pyNone (RJ.bound PyVal.pyNone)).result,
           fetchCalls := (request_page_loop ctx fetches retry (i + 1) fuel
             PyVal.pyNone (RJ.bound PyVal.pyNone)).fetchCalls + 1,
           log := (request_page_loop ctx fetches retry (i + 1) fuel
             PyVal.pyNone (RJ.bound PyVal.pyNone)).log })
    ∧ (∀ (ctx : Ctx) (fetches : Nat → Option String) (retry i fuel : Nat)
         (pos : PyVal) (rj : RJ) (text : String) (env w m : PyVal),
       fetches i = some text → isPyNone pos = false →
       ctx.jsonLoads text = some env →
       getItem env "items_html" = Except.ok w →
       ctx.fromHtml (if truthy w then w else PyVal.str "") = [] →
       truthy env = true → getItem env "min_position" = Except.ok m →
       request_page_loop ctx fetches retry i (fuel + 1) pos rj =
         { result := (request_page_loop ctx fetches retry (i + 1) fuel m
             (RJ.bound env)).result,
           fetchCalls := (request_page_loop ctx fetches retry (i + 1) fuel m
             (RJ.bound env)).fetchCalls + 1,
           log := (request_page_loop ctx fetches retry (i + 1) fuel m
             (RJ.bound env)).log })
    ∧ (∀ (ctx : Ctx) (fetches : Nat → Option String) (text : String)
         (env w p : PyVal) (R : Nat),
       (∀ n, fetches n = some text) → ctx.jsonLoads text = some env →
       truthy env = true → getItem env "items_html" = Except.ok w →
       ctx.fromHtml (if truthy w then w else PyVal.str "") = [] →
       getItem env "min_position" = Except.ok p → isPyNone p = false →
       request_page ctx fetches p R =
         ⟨Except.ok ([], PyVal.pyNone), R, [LogEvent.errorNoSuccess R]⟩) := by
  refine ⟨?_, ?_, ?_⟩
  · intro ctx fetches retry i fuel rj text hfetch hparse
    simp only [request_page_loop, hfetch,
      attemptStep_stall_first_page ctx text rj hparse]
  · intro ctx fetches retry i fuel pos rj text env w m hfetch hpos hjson hw
      hparse henv hm
    simp only [request_page_loop, hfetch,
      attemptStep_stall_continuation ctx text pos env w m rj hpos hjson hw
        hparse henv hm]
  · intro ctx fetches text env w p R hf hjson henv hw hparse hm hp
    exact request_page_loop_stall_run ctx fetches R text env w p hf hjson henv
      hw hparse hm hp R 0 RJ.unbound

/-- The JSON envelope used by concrete stall scenarios: an `items_html`
field whose content parses to no tweets and a `min_position` of `"99"`. -/
def envS : PyVal :=
  PyVal.dict [("items_html", PyVal.str "x"), ("min_position", PyVal.str "99")]

/-- A context whose `json.loads` always fails and whose page parser never
finds a tweet. -/
def ctxEmpty : Ctx := ⟨fun _ => Option.none, fun _ => []⟩

/-- A context whose `json.loads` always yields `envS` and whose page
parser never finds a tweet. -/
def ctxEnv : Ctx := ⟨fun _ => some envS, fun _ => []⟩

/-- Witness for C1: the first-page stall step, the continuation stall
step (cursor moves to the envelope's `min_position` of `"99"`), and a
whole stalled run with budget 5 returning `([], None)` after exactly 5
attempts. -/
theorem request_page_stall_rule_and_budget_witness :
    (request_page_loop ctxEmpty (fun _ => some "body") 10 0 3 PyVal.pyNone
        RJ.unbound =
      { result := (request_page_loop ctxEmpty (fun _ => some "body") 10 1 2
          PyVal.pyNone (RJ.bound PyVal.pyNone)).result,
        fetchCalls := (request_page_loop ctxEmpty (fun _ => some "body") 10 1 2
          PyVal.pyNone (RJ.bound PyVal.pyNone)).fetchCalls + 1,
        log := (request_page_loop ctxEmpty (fun _ => some "body") 10 1 2
          PyVal.pyNone (RJ.bound PyVal.pyNone)).log })
    ∧ (request_page_loop ctxEnv (fun _ => some "body") 7 0 3 (PyVal.str "5")
        RJ.unbound =
      { result := (request_page_loop ctxEnv (fun _ => some "body") 7 1 2
          (PyVal.str "99") (RJ.bound envS)).result,
        fetchCalls := (request_page_loop ctxEnv (fun _ => some "body") 7 1 2
          (PyVal.str "99") (RJ.bound envS)).fetchCalls + 1,
        log := (request_page_loop ctxEnv (fun _ => some "body") 7 1 2
          (PyVal.str "99") (RJ.bound envS)).log })
    ∧ request_page ctxEnv (fun _ => some "body") (PyVal.str "99") 5 =
        ⟨Except.ok ([], PyVal.pyNone), 5, [LogEvent.errorNoSuccess 5]⟩ :=
  ⟨request_page_stall_rule_and_budget.1 ctxEmpty (fun _ => some "body") 10 0 2
      RJ.unbound "body" rfl rfl,
   request_page_stall_rule_and_budget.2.1 ctxEnv (fun _ => some "body") 7 0 2
      (PyVal.str "5") RJ.unbound "body" envS (PyVal.str "x") (PyVal.str "99")
      rfl rfl rfl rfl rfl rfl rfl,
   request_page_stall_rule_and_budget.2.2 ctxEnv (fun _ => some "body") "body"
      envS (PyVal.str "x") (PyVal.str "99") 5 (fun _ => rfl) rfl rfl rfl rfl
      rfl rfl⟩

/-- C2: for every retry budget `R ≥ 1`, if the fetch raises a transport
failure on every attempt, `_request_page` makes exactly `R` fetch
attempts, logs each failure (one `exception` plus retry countdown per
attempt), then logs an error naming the number of attempts and returns
`(empty sequence, null)`. -/
theorem request_page_transport_exhausts_budget (ctx : Ctx)
    (fetches : Nat → Option String) (pos : PyVal) (R : Nat) (_hR : 1 ≤ R)
    (hf : ∀ n, fetches n = Option.none) :
    request_page ctx fetches pos R =
      ⟨Except.ok ([], PyVal.pyNone), R,
        transportLog R ++ [LogEvent.errorNoSuccess R]⟩ :=
  request_page_loop_transport ctx fetches R hf R 0 pos RJ.unbound

/-- Witness for C2 at `R = 2`: the two failed attempts are logged, then
the final error names the 2 attempts, and `([], None)` is returned. -/
theorem request_page_transport_exhausts_budget_witness :
    request_page ⟨fun _ => Option.none, fun _ => []⟩ (fun _ => Option.none)
        PyVal.pyNone 2 =
      ⟨Except.ok ([], PyVal.pyNone), 2,
        [LogEvent.exception, LogEvent.retryInfo 1, LogEvent.exception,
         LogEvent.retryInfo 0, LogEvent.errorNoSuccess 2]⟩ :=
  request_page_transport_exhausts_budget ⟨fun _ => Option.none, fun _ => []⟩
    (fun _ => Option.none) PyVal.pyNone 2 (by decide) (fun _ => rfl)

/-- C6 (code bug): on a continuation request (`pos = "123"`) whose first
attempt fetches a body that is not valid JSON, `json.loads`'s
`ValueError` is caught with `html = ''`, the parse yields zero records,
and the stall assignment then reads the never-assigned `response_json`:
`_request_page` raises `UnboundLocalError` after a single attempt instead
of treating the attempt as a zero-record page and retrying. -/
theorem request_page_malformed_body_raises :
    request_page ⟨fun _ => Option.none, fun _ => []⟩
        (fun _ => some "not json") (PyVal.str "123") 10 =
      ⟨Except.error PyErr.unboundLocal, 1, []⟩ := rfl

/-- C7 (code bug): when every `_request_page` call returns the
retry-exhausted outcome `([], None)`, `query_user_tweets` never
terminates: for every fuel bound the loop is still running (the guard
`pos and ...` is false, the accumulator stays empty, no limit of any
value is ever hit, and there is no empty-page exit in this loop). -/
theorem query_user_tweets_all_empty_diverges (limit : Option Nat) (fuel : Nat) :
    query_user_tweets (fun _ => Except.ok ([], PyVal.pyNone)) limit fuel =
      Option.none :=
  query_user_tweets_loop_all_empty limit fuel 0

/-- C8 counterexample: `query_tweets_parallel` does not catch unexpected
failures.  With a zero-day date range (`begindate = enddate`) and a limit
set, the clamped pool size is 0 and `limit // poolsize` raises
`ZeroDivisionError`, which propagates to the caller. -/
theorem query_tweets_parallel_propagates_zero_division :
    query_tweets_parallel (fun _ _ => []) (some 10) 20 0 0 =
      Except.error PyErr.zeroDivisionError := rfl

/-- C8 (amended): unexpected failures are caught, logged and suppressed
at the boundaries of `query_user` (which returns null), of
`query_user_tweets` and of `query_tweets` (which return the partial
result accumulated, resp. emitted, so far) — but not of
`query_tweets_parallel`, whose only handler catches `KeyboardInterrupt`. -/
theorem public_op_boundaries_suppress_failures :
    (∀ (U : Type) (fetches : Nat → Option String)
       (fromHtmlU : String → Except PyErr (Option U)) (retry : Nat) (e : PyErr),
       request_user_loop fetches fromHtmlU 0 retry = Except.error e →
       query_user fetches fromHtmlU retry = Option.none)
    ∧ (∀ (pages : Nat → Except PyErr (List Tweet × PyVal)) (limit : Option Nat)
         (k : Nat) (pos : PyVal) (acc : List Tweet) (fuel : Nat) (e : PyErr),
       pages k = Except.error e →
       query_user_tweets_loop pages limit k pos acc (fuel + 1) = some acc)
    ∧ (∀ (pages : Nat → Except PyErr (List Tweet × PyVal)) (limit : Option Nat)
         (k : Nat) (pos : PyVal) (num : Nat) (fuel : Nat) (e : PyErr),
       pages k = Except.error e →
       query_tweets_loop pages limit k pos num (fuel + 1) = some []) := by
  refine ⟨?_, ?_, ?_⟩
  · intro U fetches f retry e h
    unfold query_user
    rw [h]
  · intro pages limit k pos acc fuel e h
    simp only [query_user_tweets_loop, h]
  · intro pages limit k pos num fuel e h
    simp only [query_tweets_loop, h]

/-- Witness for the amended C8: each of the three boundaries applied to a
run whose oracle raises on the first call. -/
theorem public_op_boundaries_suppress_failures_witness :
    query_user (U := Unit) (fun _ => some "x")
        (fun _ => Except.error PyErr.typeError) 3 = Option.none
    ∧ query_user_tweets_loop (fun _ => Except.error PyErr.keyError)
        Option.none 0 PyVal.pyNone [] 1 = some []
    ∧ query_tweets_loop (fun _ => Except.error PyErr.keyError)
        Option.none 0 PyVal.pyNone 0 1 = some [] :=
  ⟨public_op_boundaries_suppress_failures.1 Unit (fun _ => some "x")
      (fun _ => Except.error PyErr.typeError) 3 PyErr.typeError rfl,
   public_op_boundaries_suppress_failures.2.1 (fun _ => Except.error PyErr.keyError)
      Option.none 0 PyVal.pyNone [] 0 PyErr.keyError rfl,
   public_op_boundaries_suppress_failures.2.2 (fun _ => Except.error PyErr.keyError)
      Option.none 0 PyVal.pyNone 0 0 PyErr.keyError rfl⟩

lemma limitHit_of_le {l n : Nat} (h0 : 0 < l) (h : l ≤ n) :
    limitHit (some l) n = true := by
  simp [limitHit]
  omega

lemma tail_merge_only_older :
    ∀ (news acc : List Tweet) (t : Tweet), t ∈ tail_merge_loop acc news →
      t ∈ acc ∨ (t ∈ news ∧
        ∀ l, acc.getLast? = some l → t.timestamp < l.timestamp) := by
  intro news
  induction news with
  | nil =>
    intro acc t ht
    simp only [tail_merge_loop] at ht
    exact Or.inl ht
  | cons n rest ih =>
    intro acc t ht
    cases hg : acc.getLast? with
    | none =>
      simp only [tail_merge_loop, hg] at ht
      exact Or.inl ht
    | some last =>
      simp only [tail_merge_loop, hg] at ht
      by_cases hc : last.timestamp > n.timestamp
      · rw [if_pos hc] at ht
        rcases ih (acc ++ [n]) t ht with h | ⟨hmem, hts⟩
        · rcases List.mem_append.1 h with h' | h'
          · exact Or.inl h'
          · have hn : t = n := by simpa using h'
            subst hn
            refine Or.inr ⟨List.mem_cons_self _ _, ?_⟩
            intro l hl
            injection hl with hl
            subst hl
            exact hc
        · refine Or.inr ⟨List.mem_cons_of_mem _ hmem, ?_⟩
          intro l hl
          have h2 := hts n (List.getLast?_concat acc)
          injection hl with hl
          subst hl
          exact lt_trans h2 hc
      · rw [if_neg hc] at ht
        rcases ih acc t ht with h | ⟨hmem, hts⟩
        · exact Or.inl h
        · refine Or.inr ⟨List.mem_cons_of_mem _ hmem, ?_⟩
          intro l hl
          injection hl with hl
          subst hl
          exact hts last hg

/-- C4: whenever a previous cursor exists (`pos` truthy) and the newly
observed cursor converts to a strictly greater integer than it,
`query_user_tweets` switches to tail-merge mode: the loop returns
immediately after running the tail merge, which appends to the
accumulated list only records of the new page whose timestamp is strictly
older than the currently-last accumulated record's timestamp (re-read
after every append). -/
theorem query_user_tweets_reversal_tail_merge
    (pages : Nat → Except PyErr (List Tweet × PyVal)) (limit : Option Nat)
    (k : Nat) (pos : PyVal) (acc : List Tweet) (fuel : Nat)
    (newTweets : List Tweet) (newPos : PyVal) (a b : Int)
    (hpage : pages k = Except.ok (newTweets, newPos))
    (hpos : truthy pos = true)
    (hb : pyInt newPos = Except.ok b) (ha : pyInt pos = Except.ok a)
    (hab : a < b) :
    query_user_tweets_loop pages limit k pos acc (fuel + 1) =
        some (tail_merge_loop acc newTweets)
    ∧ ∀ t ∈ tail_merge_loop acc newTweets,
        t ∈ acc ∨ (t ∈ newTweets ∧
          ∀ l, acc.getLast? = some l → t.timestamp < l.timestamp) := by
  constructor
  · have hrc : reversal_check pos newPos = Except.ok true := by
      simp [reversal_check, hpos, hb, ha, hab]
    simp only [query_user_tweets_loop, hpage, hrc]
  · exact tail_merge_only_older newTweets acc

/-- Tweets used by concrete paginator scenarios. -/
def tweetA : Tweet := ⟨"a", 10⟩

def tweetB : Tweet := ⟨"b", 5⟩

def tweetC : Tweet := ⟨"c", 8⟩

/-- Witness for C4, the spec's `[100, 150, 200]` anomaly: with previous
cursor `"150"` and new cursor `"200"` (200 > 150), the loop returns the
tail merge of the current page into the accumulated `[tweetA]`, which
keeps only the strictly older `tweetB` (timestamp 5 < 10; `tweetC` is not
older than the then-last `tweetB`). -/
theorem query_user_tweets_reversal_tail_merge_witness :
    query_user_tweets_loop
        (fun _ => Except.ok ([tweetB, tweetC], PyVal.str "200")) Option.none 0
        (PyVal.str "150") [tweetA] 1 = some (tail_merge_loop [tweetA] [tweetB, tweetC])
    ∧ tail_merge_loop [tweetA] [tweetB, tweetC] = [tweetA, tweetB] :=
  ⟨(query_user_tweets_reversal_tail_merge
      (fun _ => Except.ok ([tweetB, tweetC], PyVal.str "200")) Option.none 0
      (PyVal.str "150") [tweetA] 0 [tweetB, tweetC] (PyVal.str "200") 150 200
      rfl rfl rfl rfl (by decide)).1,
   by decide⟩

/-- C9: when the accumulated record count first reaches a set limit, the
paginators stop only after the whole final page has been handled.  First
conjunct: `query_tweets` emits every record of the final page (each
paired with the cursor the page was requested with) and only then
returns.  Second conjunct: `query_user_tweets` (outside the reversal
branch) accumulates the whole final page and returns it, so the number of
records returned is at least the limit. -/
theorem paginators_no_truncation_at_limit :
    (∀ (pages : Nat → Except PyErr (List Tweet × PyVal)) (l k : Nat)
       (pos : PyVal) (num fuel : Nat) (newTweets : List Tweet) (newPos : PyVal),
       pages k = Except.ok (newTweets, newPos) → newTweets ≠ [] → 0 < l →
       l ≤ num + newTweets.length →
       query_tweets_loop pages (some l) k pos num (fuel + 1) =
         some (newTweets.map (fun t => (t, pos))))
    ∧ (∀ (pages : Nat → Except PyErr (List Tweet × PyVal)) (l k : Nat)
         (pos : PyVal) (acc : List Tweet) (fuel : Nat)
         (newTweets : List Tweet) (newPos : PyVal),
       pages k = Except.ok (newTweets, newPos) →
       reversal_check pos newPos = Except.ok false → 0 < l →
       l ≤ acc.length + newTweets.length →
       query_user_tweets_loop pages (some l) k pos acc (fuel + 1) =
           some (acc ++ newTweets)
         ∧ l ≤ (acc ++ newTweets).length) := by
  constructor
  · intro pages l k pos num fuel newTweets newPos hpage hne hl hcount
    obtain ⟨t, ts, rfl⟩ : ∃ t ts, newTweets = t :: ts := by
      cases newTweets with
      | nil => exact absurd rfl hne
      | cons t ts => exact ⟨t, ts, rfl⟩
    have hhit : limitHit (some l) (num + (t :: ts).length) = true :=
      limitHit_of_le hl hcount
    simp only [query_tweets_loop, hpage, hhit, if_true]
  · intro pages l k pos acc fuel newTweets newPos hpage hrc hl hcount
    have hhit : limitHit (some l) (acc ++ newTweets).length = true :=
      limitHit_of_le hl (by rw [List.length_append]; exact hcount)
    refine ⟨?_, by simpa [List.length_append] using hcount⟩
    simp only [query_user_tweets_loop, hpage, hrc, hhit, if_true]

/-- Witness for C9: a limit of 2 is reached by the two records of the
final page; `query_tweets` emits both pairs and `query_user_tweets`
returns the accumulated tweet plus the whole new page (2 ≥ 2). -/
theorem paginators_no_truncation_at_limit_witness :
    query_tweets_loop (fun _ => Except.ok ([tweetA, tweetB], PyVal.str "n"))
        (some 2) 0 PyVal.pyNone 0 1 =
      some [(tweetA, PyVal.pyNone), (tweetB, PyVal.pyNone)]
    ∧ (query_user_tweets_loop (fun _ => Except.ok ([tweetB], PyVal.str "n"))
          (some 2) 0 PyVal.pyNone [tweetA] 1 = some ([tweetA] ++ [tweetB])
        ∧ 2 ≤ ([tweetA] ++ [tweetB]).length) :=
  ⟨paginators_no_truncation_at_limit.1
      (fun _ => Except.ok ([tweetA, tweetB], PyVal.str "n")) 2 0 PyVal.pyNone 0
      0 [tweetA, tweetB] (PyVal.str "n") rfl (by decide) (by decide) (by decide),
   paginators_no_truncation_at_limit.2
      (fun _ => Except.ok ([tweetB], PyVal.str "n")) 2 0 PyVal.pyNone [tweetA]
      0 [tweetB] (PyVal.str "n") rfl rfl (by decide) (by decide)⟩

lemma query_tweets_loop_formula (pages : Nat → Except PyErr (List Tweet × PyVal))
    (recs : Nat → List Tweet) (curs : Nat → PyVal)
    (hp : ∀ j, pages j = Except.ok (recs j, curs j)) :
    ∀ (n k0 : Nat) (pos : PyVal) (num fuel : Nat),
      (∀ j, j < n → recs (k0 + j) ≠ []) → recs (k0 + n) = [] → n < fuel →
      query_tweets_loop pages Option.none k0 pos num fuel =
        some (emitFrom recs curs k0 pos n) := by
  intro n
  induction n with
  | zero =>
    intro k0 pos num fuel _hne hk hfuel
    obtain ⟨f, rfl⟩ : ∃ f, fuel = f + 1 := ⟨fuel - 1, by omega⟩
    have hk0 : recs k0 = [] := by simpa using hk
    simp only [query_tweets_loop, hp k0, hk0, emitFrom]
  | succ m ih =>
    intro k0 pos num fuel hne hk hfuel
    obtain ⟨f, rfl⟩ : ∃ f, fuel = f + 1 := ⟨fuel - 1, by omega⟩
    have hne0 : recs k0 ≠ [] := by simpa using hne 0 (by omega)
    obtain ⟨t, ts, hts⟩ : ∃ t ts, recs k0 = t :: ts := by
      cases h : recs k0 with
      | nil => exact absurd h hne0
      | cons a l => exact ⟨a, l, rfl⟩
    have hrec := ih (k0 + 1) (curs k0) (num + (t :: ts).length) f
      (fun j hj => by
        have h : k0 + 1 + j = k0 + (j + 1) := by omega
        rw [h]
        exact hne (j + 1) (by omega))
      (by
        have h : k0 + 1 + m = k0 + (m + 1) := by omega
        rw [h]
        exact hk)
      (by omega)
    simp only [query_tweets_loop, hp k0, hts, limitHit, hrec, emitFrom,
      Bool.false_eq_true, if_false]

lemma emitFrom_map_fst (recs : Nat → List Tweet) (curs : Nat → PyVal) :
    ∀ (n k0 : Nat) (pos : PyVal),
      (emitFrom recs curs k0 pos n).map Prod.fst =
        ((List.range' k0 n).map recs).flatten := by
  intro n
  induction n with
  | zero => intro k0 pos; rfl
  | succ m ih =>
    intro k0 pos
    have hr : List.range' k0 (m + 1) = k0 :: List.range' (k0 + 1) m := rfl
    simp only [emitFrom, List.map_append, List.map_map, ih (k0 + 1) (curs k0),
      hr, List.map_cons, List.flatten_cons]
    have hid : (Prod.fst ∘ fun t : Tweet => (t, pos)) = id := rfl
    rw [hid, List.map_id]

/-- C3: for every run of `query_tweets` (no limit) against pages of which
exactly the first `k` are non-empty, the paginator terminates and the
records it emits are exactly the records of pages `1..k` in page order
(the first zero-record page ends the stream normally, with a value, not
an error). -/
theorem query_tweets_emits_pages_until_first_empty
    (pages : Nat → Except PyErr (List Tweet × PyVal))
    (recs : Nat → List Tweet) (curs : Nat → PyVal) (k : Nat) (pos0 : PyVal)
    (fuel : Nat)
    (hp : ∀ j, pages j = Except.ok (recs j, curs j))
    (hne : ∀ j, j < k → recs j ≠ []) (hk : recs k = []) (hfuel : k < fuel) :
    ∃ out, query_tweets pages Option.none pos0 fuel = some out ∧
      out.map Prod.fst = ((List.range k).map recs).flatten := by
  refine ⟨emitFrom recs curs 0 pos0 k, ?_, ?_⟩
  · exact query_tweets_loop_formula pages recs curs hp k 0 pos0 0 fuel
      (fun j hj => by simpa using hne j hj) (by simpa using hk) hfuel
  · rw [List.range_eq_range']
    exact emitFrom_map_fst recs curs k 0 pos0

lemma emitFrom_eq_flatten (recs : Nat → List Tweet) (curs : Nat → PyVal)
    (pu : Nat → PyVal) (hs : ∀ j, pu (j + 1) = curs j) :
    ∀ (n k0 : Nat) (pos : PyVal), pu k0 = pos →
      emitFrom recs curs k0 pos n =
        ((List.range' k0 n).map
          (fun kk => (recs kk).map (fun t => (t, pu kk)))).flatten := by
  intro n
  induction n with
  | zero => intro k0 pos _; rfl
  | succ m ih =>
    intro k0 pos h0
    have hr : List.range' k0 (m + 1) = k0 :: List.range' (k0 + 1) m := rfl
    simp only [emitFrom, hr, List.map_cons, List.flatten_cons, h0.symm,
      ih (k0 + 1) (curs k0) (hs k0)]

/-- C10: every pair `(record, cursor)` yielded by `query_tweets` carries
the position value the record's page was requested with: `posUsed 0` is
the caller-supplied starting cursor, and `posUsed (j+1)` is the position
page `j` reported — never the page's own newly reported next position;
the cursor advances only after all records of the current page have been
yielded. -/
theorem query_tweets_pairs_record_with_request_cursor
    (pages : Nat → Except PyErr (List Tweet × PyVal))
    (recs : Nat → List Tweet) (curs posUsed : Nat → PyVal) (k : Nat)
    (pos0 : PyVal) (fuel : Nat)
    (hp : ∀ j, pages j = Except.ok (recs j, curs j))
    (h0 : posUsed 0 = pos0) (hs : ∀ j, posUsed (j + 1) = curs j)
    (hne : ∀ j, j < k → recs j ≠ []) (hk : recs k = []) (hfuel : k < fuel) :
    query_tweets pages Option.none pos0 fuel =
      some (((List.range k).map
        (fun j => (recs j).map (fun t => (t, posUsed j)))).flatten) := by
  have h1 := query_tweets_loop_formula pages recs curs hp k 0 pos0 0 fuel
    (fun j hj => by simpa using hne j hj) (by simpa using hk) hfuel
  rw [List.range_eq_range', ← emitFrom_eq_flatten recs curs posUsed hs k 0 pos0 h0]
  exact h1

/-- Pages for the concrete two-page paginator scenario: page 0 holds
`tweetA`, page 1 holds `tweetB`, every later page is empty. -/
def recsW : Nat → List Tweet :=
  fun j => if j = 0 then [tweetA] else if j = 1 then [tweetB] else []

/-- Cursors reported by the concrete pages. -/
def cursW : Nat → PyVal := fun _ => PyVal.str "c"

/-- The page oracle of the concrete scenario. -/
def pagesW : Nat → Except PyErr (List Tweet × PyVal) :=
  fun j => Except.ok (recsW j, cursW j)

/-- Witness for C3: with pages `[tweetA]`, `[tweetB]`, `[]`, the run
terminates and emits exactly the records of the two non-empty pages in
order. -/
theorem query_tweets_emits_pages_until_first_empty_witness :
    ∃ out, query_tweets pagesW Option.none PyVal.pyNone 3 = some out ∧
      out.map Prod.fst = ((List.range 2).map recsW).flatten :=
  query_tweets_emits_pages_until_first_empty pagesW recsW cursW 2 PyVal.pyNone 3
    (fun _ => rfl) (by decide) (by decide) (by decide)

/-- The position used to request each page in the concrete scenario:
`None` for page 0, the reported cursor for every later page. -/
def posUsedW : Nat → PyVal :=
  fun j => match j with
  | 0 => PyVal.pyNone
  | _ + 1 => PyVal.str "c"

/-- Witness for C10: in the two-page scenario the pair for `tweetA`
carries the caller's `None` cursor and the pair for `tweetB` carries the
cursor page 0 reported. -/
theorem query_tweets_pairs_record_with_request_cursor_witness :
    query_tweets pagesW Option.none PyVal.pyNone 3 =
      some (((List.range 2).map
        (fun j => (recsW j).map (fun t => (t, posUsedW j)))).flatten) :=
  query_tweets_pairs_record_with_request_cursor pagesW recsW cursW posUsedW 2
    PyVal.pyNone 3 (fun _ => rfl) rfl (fun _ => rfl) (by decide) (by decide)
    (by decide)

lemma clampedPool_eq_min (a b : Nat) : clampedPool a b = min a b := by
  unfold clampedPool
  rcases le_or_lt a b with h | h
  · rw [if_neg (by omega), Nat.min_eq_left h]
  · rw [if_pos (by omega), Nat.min_eq_right (by omega)]

lemma zip_consecutive {α : Type} (n : Nat) (g : Nat → α) :
    (((List.range (n + 1)).map g).zip (((List.range (n + 1)).map g).drop 1)) =
      (List.range n).map (fun i => (g i, g (i + 1))) := by
  apply List.ext_getElem
  · simp only [List.length_zip, List.length_drop, List.length_map,
      List.length_range, inf_eq_min]
    omega
  · intro i h1 h2
    simp only [List.getElem_zip, List.getElem_drop, List.getElem_map,
      List.getElem_range]
    rw [Nat.add_comm 1 i]

lemma div_bound_strict_mono {D p : Nat} (hp : 0 < p) (hpD : p ≤ D) (i : Nat) :
    i * D / p + 1 ≤ (i + 1) * D / p :=
  calc i * D / p + 1 = (i * D + p) / p := (Nat.add_div_right _ hp).symm
    _ ≤ ((i + 1) * D) / p := Nat.div_le_div_right (by rw [Nat.succ_mul]; omega)

/-- The `j`-th partition boundary: the begin date plus the whole-day part
of the `j`-th linspace sample `j * D / p`. -/
def partitionBound (begindate : Int) (D p j : Nat) : Int :=
  begindate + Int.ofNat (j * D / p)

/-- C5: for every begin date strictly before end date spanning `D` days
and every requested pool size `P ≥ 1`, the range partitioning produces
exactly `min P D` sub-query date ranges (the pool is clamped down to `D`
when `P > D`), whose bounds follow the linear interpolation
`begin + ⌊j·D/p⌋`; consequently every partition has positive width (no
zero-width partition), consecutive partitions share their boundary
(`until` of one = `since` of the next), the first `since` is the begin
date and the last `until` is the end date. -/
theorem parallel_partitions_spec (begindate enddate : Int) (P : Nat)
    (hbe : begindate < enddate) (hP : 0 < P) :
    parallelPartitions begindate enddate P =
        (List.range (min P (enddate - begindate).toNat)).map
          (fun j => (partitionBound begindate (enddate - begindate).toNat
                       (min P (enddate - begindate).toNat) j,
                     partitionBound begindate (enddate - begindate).toNat
                       (min P (enddate - begindate).toNat) (j + 1)))
    ∧ (parallelPartitions begindate enddate P).length =
        min P (enddate - begindate).toNat
    ∧ (∀ (i : Nat) (x y : Int × Int),
        (parallelPartitions begindate enddate P)[i]? = some x →
        (parallelPartitions begindate enddate P)[i + 1]? = some y →
        x.2 = y.1)
    ∧ (∀ (i : Nat) (x : Int × Int),
        (parallelPartitions begindate enddate P)[i]? = some x →
        x.1 < x.2)
    ∧ ((parallelPartitions begindate enddate P).map Prod.fst).head? =
        some begindate
    ∧ ((parallelPartitions begindate enddate P).map Prod.snd).getLast? =
        some enddate := by
  have hD : (0 : Int) < enddate - begindate := by omega
  set D := (enddate - begindate).toNat with hDdef
  have hDpos : 0 < D := by omega
  set p := min P D with hpdef
  have hppos : 0 < p := by omega
  have hpD : p ≤ D := by omega
  obtain ⟨q, hq⟩ : ∃ q, p = q + 1 := ⟨p - 1, by omega⟩
  have hform : parallelPartitions begindate enddate P =
      (List.range p).map (fun j =>
        (partitionBound begindate D p j, partitionBound begindate D p (j + 1))) := by
    simp only [parallelPartitions]
    rw [← hDdef, clampedPool_eq_min, ← hpdef]
    simp only [linspaceDays]
    rw [if_neg (by omega), List.map_map,
      zip_consecutive p ((fun b => begindate + Int.ofNat b) ∘ fun i => i * D / p)]
    simp [partitionBound, Function.comp]
  refine ⟨hform, ?_, ?_, ?_, ?_, ?_⟩
  · rw [hform]; simp
  · intro i x y hx hy
    rw [hform] at hx hy
    have hi : i < p := by
      by_contra hcon
      rw [List.getElem?_eq_none (by simp; omega)] at hx
      cases hx
    have hi1 : i + 1 < p := by
      by_contra hcon
      rw [List.getElem?_eq_none (by simp; omega)] at hy
      cases hy
    rw [List.getElem?_map, List.getElem?_range hi, Option.map_some'] at hx
    rw [List.getElem?_map, List.getElem?_range hi1, Option.map_some'] at hy
    injection hx with hx
    injection hy with hy
    subst hx
    subst hy
    rfl
  · intro i x hx
    rw [hform] at hx
    have hi : i < p := by
      by_contra hcon
      rw [List.getElem?_eq_none (by simp; omega)] at hx
      cases hx
    rw [List.getElem?_map, List.getElem?_range hi, Option.map_some'] at hx
    injection hx with hx
    subst hx
    have hkey := div_bound_strict_mono hppos hpD i
    simp only [partitionBound, Int.ofNat_eq_coe]
    omega
  · rw [hform, hq, List.range_succ_eq_map]
    simp [partitionBound]
  · rw [hform, List.map_map, hq, List.range_succ, List.map_append]
    simp only [List.map_cons, List.map_nil, List.getLast?_concat]
    have hcancel : (q + 1) * D / (q + 1) = D :=
      Nat.mul_div_cancel_left D (by omega)
    simp only [Function.comp, partitionBound]
    rw [hcancel]
    simp only [Option.some.injEq, Int.ofNat_eq_coe]
    omega

/-- Witness for C5 at the spec's end-to-end example: 10 days split for a
pool of 5 gives the five two-day partitions, and the partition count is
`min 5 10`. -/
theorem parallel_partitions_spec_witness :
    parallelPartitions 0 10 5 = [(0, 2), (2, 4), (4, 6), (6, 8), (8, 10)]
    ∧ (parallelPartitions 0 10 5).length = min 5 ((10 - 0 : Int)).toNat :=
  ⟨rfl, (parallel_partitions_spec 0 10 5 (by decide) (by decide)).2.1⟩

end Scraper
